import Mathlib

/-
Verification of the explainit image-to-text-to-explanation pipeline
(src/app/(tabs)/explore.tsx). The file contains two revisions of the
screen: the first (v1) resizes once and then iterates only on the JPEG
quality of the already-resized image; the second (v2) measures the
base64 length of the original and, when over the ceiling, re-encodes
from the original at stepwise lower quality. Both are embedded below.
Quality factors are scaled to integers (tenths for v1, hundredths for
v2) so that the step arithmetic of the source is exact.
-/

namespace ExplainIt

/-- Byte ceiling for the encoded payload: 1 MiB. In v2 this is the
literal 1024 * 1024; in v1 the identifier MAX_FILE_SIZE denotes the
same constant. -/
def maxFileSize : Nat := 1024 * 1024

/-- Loop-variable starting quality of v1 (0.6), in tenths. -/
def startQualityT : Nat := 6

/-- Quality floor of the v1 loop (0.1), in tenths: the loop runs only
while quality is strictly above this. -/
def qualityFloorT : Nat := 1

/-- Quality step of the v1 loop (0.1 per iteration), in tenths. -/
def qualityStepT : Nat := 1

/-- Character class of the JavaScript string trim operation, restricted
to the ASCII whitespace characters relevant here. -/
def isJsSpace (c : Char) : Bool :=
  c = ' ' || c = '\t' || c = '\n' || c = '\r' || c = '\x0b' || c = '\x0c'

/-- Model of the JavaScript trim operation: drop leading and trailing
whitespace characters. -/
def jsTrim (s : String) : String :=
  String.mk (((s.data.dropWhile isJsSpace).reverse.dropWhile isJsSpace).reverse)

/-- Model of the JavaScript expression x or-else d on an optional
string x: undefined and the empty string are falsy, every other string
is truthy. -/
def jsOrStr : Option String → String → String
  | none, d => d
  | some s, d => if s.isEmpty then d else s

/-- One entry of the OCR response array, with an optional ParsedText
field. -/
structure OcrEntry where
  ParsedText : Option String

/-- Shape of the OCR endpoint response body: an optional ParsedResults
array. -/
structure OcrJson where
  ParsedResults : Option (List OcrEntry)

/-- The empty string, the falsy default of the extraction expression. -/
def emptyStr : String := ""

/-- Extraction rule of both revisions (lines 119 and 374): the optional
chain ParsedResults [0] ParsedText, trimmed, with the empty string as
the falsy fallback. -/
def ocrText (data : OcrJson) : String :=
  jsOrStr (((data.ParsedResults.bind List.head?).bind OcrEntry.ParsedText).map jsTrim) emptyStr

/-- Shape of the analysis endpoint response body: an optional result
field. -/
structure AnalyzeJson where
  result : Option String

/-- Fallback explanation used when the result field is falsy. -/
def noResultFallback : String := "No result from AI."

/-- ExplainClient result rule (lines 147 and 401): the result field
or-else the fixed fallback message. -/
def analyzeResult (data : AnalyzeJson) : String :=
  jsOrStr data.result noResultFallback

/-- Outcome of one fetch call as the code observes it: a rejected
promise (network failure), or an HTTP response with a status code and
a body that either parses as JSON of type beta or is malformed. -/
inductive FetchResult (β : Type) where
  | netFail : FetchResult β
  | http : Nat → Option β → FetchResult β

/-- Combined effect of await fetch followed by await response.json() as
the code performs it: a network failure or a malformed body throws; the
status code is never inspected. -/
def fetchJson {β : Type} : FetchResult β → Except Unit β
  | .netFail => .error ()
  | .http _ none => .error ()
  | .http _ (some b) => .ok b

/-- Environment of one v1 size reduction: the candidate produced by the
initial resize-and-encode step (lines 74 to 78), its measured byte size,
and the re-encode step of the loop body (manipulateAsync on the current
candidate at a given quality in tenths) together with the byte-size
measurement getFileSize. -/
structure ReduceEnv (Img : Type) where
  initial : Img
  sizeOf : Img → Nat
  reencode : Img → Nat → Img

/-- Result of the v1 reduction loop: final candidate, its size and the
final value of the quality variable, plus the iteration count, the list
of measured sizes (initial first) and the list of qualities used, for
stating the loop invariants. -/
structure ReduceResult (Img : Type) where
  img : Img
  size : Nat
  quality : Nat
  iterations : Nat
  sizes : List Nat
  qualities : List Nat

/-- The v1 while loop (lines 89 to 97): while size exceeds the ceiling
and quality exceeds the floor, re-encode the current candidate at the
current quality, re-measure, and decrement quality by one step. Quality
is in tenths, so the decrement is structural. -/
def reduceLoop {Img : Type} (renv : ReduceEnv Img) : Img → Nat → Nat → ReduceResult Img
  | img, size, 0 =>
    { img := img, size := size, quality := 0, iterations := 0, sizes := [size], qualities := [] }
  | img, size, q + 1 =>
    if maxFileSize < size ∧ qualityFloorT < q + 1 then
      let img2 := renv.reencode img (q + 1)
      let size2 := renv.sizeOf img2
      let r := reduceLoop renv img2 size2 q
      { r with iterations := r.iterations + 1, sizes := size :: r.sizes, qualities := (q + 1) :: r.qualities }
    else
      { img := img, size := size, quality := q + 1, iterations := 0, sizes := [size], qualities := [] }

/-- SizeReducer of v1 (lines 74 to 97): measure the initial candidate
and run the quality-reduction loop from quality 0.6. -/
def reduce {Img : Type} (renv : ReduceEnv Img) : ReduceResult Img :=
  reduceLoop renv renv.initial (renv.sizeOf renv.initial) startQualityT

/-- States of the pipeline run, per the orchestrator state machine. -/
inductive PipelineState where
  | Idle : PipelineState
  | Reducing : PipelineState
  | ExtractingText : PipelineState
  | Explaining : PipelineState
  | Done : PipelineState
  | Failed : PipelineState
deriving DecidableEq, Repr

/-- User-visible alerts the run can emit: the no-text informational
alert, the generic extraction failure alert, and the analysis
connection failure alert. -/
inductive AlertKind where
  | noTextDetected : AlertKind
  | extractFailed : AlertKind
  | analyzeConnectFailed : AlertKind
deriving DecidableEq, Repr

/-- Title string of each alert, as written in the source. -/
def alertTitle : AlertKind → String
  | .noTextDetected => "No text detected"
  | .extractFailed => "Error"
  | .analyzeConnectFailed => "Error"

/-- Observable outcome of one pipeline run: the snapshots of pipeline
state and busy flag at the suspension points of the run (in order,
ending with the terminal snapshot), the terminal state, the busy flag
after the run, the two displayed strings, the alerts emitted, the
number of fetches issued to each endpoint, and whether the analysis
stage was entered. -/
structure RunResult where
  trace : List (PipelineState × Bool)
  finalState : PipelineState
  busyAtEnd : Bool
  extractedText : String
  aiResult : String
  alerts : List AlertKind
  ocrFetches : Nat
  analyzeFetches : Nat
  explainInvoked : Bool
  payloadSize : Option Nat

/-- Environment of one v1 run: the size-reduction environment when the
initial manipulateAsync call succeeds (none models a throw, the
encoding failure), and the outcomes of the OCR fetch and of the
analysis fetch. -/
structure RunEnvV1 (Img : Type) where
  renv : Option (ReduceEnv Img)
  ocr : FetchResult OcrJson
  analyze : FetchResult AnalyzeJson

/-- The v1 run, extractText plus the analyzeWithAI call it makes
(lines 67 to 154). The busy flag is set on entry and cleared in the
finally blocks. Because analyzeWithAI is invoked without await, the
finally block of extractText clears the busy flag as soon as the
analysis fetch suspends, so the snapshot observed while Explaining has
the busy flag false. A throw anywhere inside extractText lands in the
catch block that emits the extraction failure alert; the analysis
stage has its own catch for the connection failure alert. -/
def runV1 {Img : Type} (env : RunEnvV1 Img) : RunResult :=
  match env.renv with
  | none =>
    { trace := [(.Idle, false), (.Reducing, true), (.Failed, false)],
      finalState := .Failed, busyAtEnd := false,
      extractedText := emptyStr, aiResult := emptyStr,
      alerts := [.extractFailed], ocrFetches := 0, analyzeFetches := 0,
      explainInvoked := false, payloadSize := none }
  | some renv =>
    let red := reduce renv
    match fetchJson env.ocr with
    | .error _ =>
      { trace := [(.Idle, false), (.Reducing, true), (.ExtractingText, true), (.Failed, false)],
        finalState := .Failed, busyAtEnd := false,
        extractedText := emptyStr, aiResult := emptyStr,
        alerts := [.extractFailed], ocrFetches := 1, analyzeFetches := 0,
        explainInvoked := false, payloadSize := some red.size }
    | .ok data =>
      let text := ocrText data
      if text.isEmpty then
        { trace := [(.Idle, false), (.Reducing, true), (.ExtractingText, true), (.Done, false)],
          finalState := .Done, busyAtEnd := false,
          extractedText := text, aiResult := emptyStr,
          alerts := [.noTextDetected], ocrFetches := 1, analyzeFetches := 0,
          explainInvoked := false, payloadSize := some red.size }
      else
        match fetchJson env.analyze with
        | .error _ =>
          { trace := [(.Idle, false), (.Reducing, true), (.ExtractingText, true), (.Explaining, false), (.Failed, false)],
            finalState := .Failed, busyAtEnd := false,
            extractedText := text, aiResult := emptyStr,
            alerts := [.analyzeConnectFailed], ocrFetches := 1, analyzeFetches := 1,
            explainInvoked := true, payloadSize := some red.size }
        | .ok adata =>
          { trace := [(.Idle, false), (.Reducing, true), (.ExtractingText, true), (.Explaining, false), (.Done, false)],
            finalState := .Done, busyAtEnd := false,
            extractedText := text, aiResult := analyzeResult adata,
            alerts := [], ocrFetches := 1, analyzeFetches := 1,
            explainInvoked := true, payloadSize := some red.size }

/-- Outcome of one v2 manipulateAsync call: a throw, or a result whose
base64 field is absent or is a base64 string given by its length.
Base64 strings are represented by their lengths throughout the v2
model, since the code inspects nothing but the length. -/
inductive ManipOutcome where
  | throws : ManipOutcome
  | returns : Option Nat → ManipOutcome

/-- The v2 byte estimate of a base64 string (line 325): the ceiling of
three quarters of its length. -/
def calcBytes (len : Nat) : Nat := (len * 3 + 3) / 4

/-- The v2 compression loop (lines 334 to 350), quality in hundredths:
while quality is at least 0.1, manipulate the original image at the
current quality; a throw propagates out (error), an absent base64
field breaks with the best attempt so far, a base64 at or under the
ceiling breaks with it, and otherwise the attempt is recorded and
quality drops by 0.15. -/
def compressLoop (manip : Nat → ManipOutcome) (q : Nat) (best : Option Nat) : Except Unit (Option Nat) :=
  if _h : 10 ≤ q then
    match manip q with
    | .throws => .error ()
    | .returns none => .ok best
    | .returns (some len) =>
      if calcBytes len ≤ maxFileSize then .ok (some len)
      else compressLoop manip (q - 15) (some len)
  else .ok best
termination_by q
decreasing_by omega

/-- The v2 payload selection (lines 321 to 365): if the original base64
is over the ceiling, run the compression loop from quality 0.9; a
throw is caught (warn, continue with the original) and an absent
result falls back to the original (warn, sending original); otherwise
the original is sent as is. The returned value is the length of the
base64 string actually sent. -/
def v2PayloadLen (base64Len : Nat) (manip : Nat → ManipOutcome) : Nat :=
  if maxFileSize < calcBytes base64Len then
    match compressLoop manip 90 none with
    | .error _ => base64Len
    | .ok none => base64Len
    | .ok (some len) => len
  else base64Len

/-- Environment of one v2 run: the length of the base64 string read
from the original file, the manipulateAsync behaviour per quality, and
the two fetch outcomes. -/
structure RunEnvV2 where
  base64Len : Nat
  manip : Nat → ManipOutcome
  ocr : FetchResult OcrJson
  analyze : FetchResult AnalyzeJson

/-- The v2 run (lines 309 to 408): the compression step never aborts
the run (its failures are caught and the original payload is kept),
then the OCR fetch and the analysis stage proceed exactly as in v1. -/
def runV2 (env : RunEnvV2) : RunResult :=
  let sent := v2PayloadLen env.base64Len env.manip
  match fetchJson env.ocr with
  | .error _ =>
    { trace := [(.Idle, false), (.Reducing, true), (.ExtractingText, true), (.Failed, false)],
      finalState := .Failed, busyAtEnd := false,
      extractedText := emptyStr, aiResult := emptyStr,
      alerts := [.extractFailed], ocrFetches := 1, analyzeFetches := 0,
      explainInvoked := false, payloadSize := some (calcBytes sent) }
  | .ok data =>
    let text := ocrText data
    if text.isEmpty then
      { trace := [(.Idle, false), (.Reducing, true), (.ExtractingText, true), (.Done, false)],
        finalState := .Done, busyAtEnd := false,
        extractedText := text, aiResult := emptyStr,
        alerts := [.noTextDetected], ocrFetches := 1, analyzeFetches := 0,
        explainInvoked := false, payloadSize := some (calcBytes sent) }
    else
      match fetchJson env.analyze with
      | .error _ =>
        { trace := [(.Idle, false), (.Reducing, true), (.ExtractingText, true), (.Explaining, false), (.Failed, false)],
          finalState := .Failed, busyAtEnd := false,
          extractedText := text, aiResult := emptyStr,
          alerts := [.analyzeConnectFailed], ocrFetches := 1, analyzeFetches := 1,
          explainInvoked := true, payloadSize := some (calcBytes sent) }
      | .ok adata =>
        { trace := [(.Idle, false), (.Reducing, true), (.ExtractingText, true), (.Explaining, false), (.Done, false)],
          finalState := .Done, busyAtEnd := false,
          extractedText := text, aiResult := analyzeResult adata,
          alerts := [], ocrFetches := 1, analyzeFetches := 1,
          explainInvoked := true, payloadSize := some (calcBytes sent) }

/-- Sample raw OCR text with surrounding whitespace, from the spec
example. -/
def sampleRaw : String := " hello world "

/-- The sample text after trimming. -/
def sampleTrimmed : String := "hello world"

/-- Concrete reduction environment over Nat images whose measured size
is always 1000 bytes, far under the ceiling. -/
def cRenvSmall : ReduceEnv Nat :=
  { initial := 0, sizeOf := fun _ => 1000, reencode := fun i _ => i }

/-- OCR response body with no ParsedResults field. -/
def cOcrEmpty : OcrJson := { ParsedResults := none }

/-- OCR response body with one entry holding the sample text. -/
def cOcrHello : OcrJson := { ParsedResults := some [{ ParsedText := some sampleRaw }] }

/-- A v1 run environment whose OCR fetch rejects at the network level. -/
def envOcrNetFail : RunEnvV1 Nat :=
  { renv := some cRenvSmall, ocr := .netFail, analyze := .netFail }

/-- A v1 run environment whose OCR fetch returns status 500 with a
well-formed JSON body holding no ParsedResults. -/
def envOcr500 : RunEnvV1 Nat :=
  { renv := some cRenvSmall, ocr := .http 500 (some cOcrEmpty), analyze := .netFail }

/-- A v1 run environment whose initial image manipulation throws. -/
def envEncFail : RunEnvV1 Nat :=
  { renv := none, ocr := .netFail, analyze := .netFail }

/-- A v1 run environment whose OCR succeeds with an empty result. -/
def envNoText : RunEnvV1 Nat :=
  { renv := some cRenvSmall, ocr := .http 200 (some cOcrEmpty), analyze := .netFail }

/-- A v1 run environment reaching the analysis stage, whose analysis
response carries no result field. -/
def envExplainAbsent : RunEnvV1 Nat :=
  { renv := some cRenvSmall, ocr := .http 200 (some cOcrHello), analyze := .http 200 (some { result := none }) }

/-- A v2 run environment with an oversized original base64 string in
which every image manipulation call throws; the OCR fetch itself
succeeds with an empty body. -/
def envV2EncFail : RunEnvV2 :=
  { base64Len := 1398200, manip := fun _ => .throws,
    ocr := .http 200 (some cOcrEmpty), analyze := .netFail }

/-- States in which the spec allows the busy flag to be set. -/
def activeState : PipelineState → Bool
  | .Reducing => true
  | .ExtractingText => true
  | .Explaining => true
  | _ => false

/-- Snapshot discipline: a set busy flag is allowed only in an active
state. -/
def busyOnlyWhenActive (p : PipelineState × Bool) : Bool :=
  !p.2 || activeState p.1

theorem reduceLoop_iterations_le {Img : Type} (renv : ReduceEnv Img) (img : Img) (size q : Nat) :
    (reduceLoop renv img size q).iterations ≤ q := by
  induction q generalizing img size with
  | zero => simp [reduceLoop]
  | succ n ih =>
    simp only [reduceLoop]
    split
    · simpa using ih _ _
    · simp

theorem reduceLoop_sizes_head {Img : Type} (renv : ReduceEnv Img) (img : Img) (size q : Nat) :
    (reduceLoop renv img size q).sizes.head? = some size := by
  cases q with
  | zero => simp [reduceLoop]
  | succ n =>
    simp only [reduceLoop]
    split <;> simp

theorem reduceLoop_qualities_head {Img : Type} (renv : ReduceEnv Img) (img : Img) (size q : Nat) :
    ∀ b ∈ (reduceLoop renv img size q).qualities.head?, b = q := by
  cases q with
  | zero => simp [reduceLoop]
  | succ n =>
    simp only [reduceLoop]
    split <;> simp

theorem reduceLoop_postcond {Img : Type} (renv : ReduceEnv Img) (img : Img) (size q : Nat) :
    (reduceLoop renv img size q).size ≤ maxFileSize ∨ (reduceLoop renv img size q).quality ≤ qualityFloorT := by
  induction q generalizing img size with
  | zero => right; simp [reduceLoop, qualityFloorT]
  | succ n ih =>
    simp only [reduceLoop]
    split
    · simpa using ih _ _
    · rename_i hcond
      simp only
      omega

theorem reduceLoop_size_min {Img : Type} (renv : ReduceEnv Img)
    (hmono : ∀ img q, renv.sizeOf (renv.reencode img q) ≤ renv.sizeOf img)
    (img : Img) (size q : Nat) (hs : size = renv.sizeOf img) :
    ∀ x ∈ (reduceLoop renv img size q).sizes, (reduceLoop renv img size q).size ≤ x := by
  induction q generalizing img size with
  | zero =>
    intro x hx
    simp only [reduceLoop, List.mem_singleton] at hx
    simp [reduceLoop, hx]
  | succ n ih =>
    simp only [reduceLoop]
    split
    · intro x hx
      simp only [List.mem_cons] at hx
      rcases hx with rfl | hx
      · have hhead : (reduceLoop renv (renv.reencode img (n + 1)) (renv.sizeOf (renv.reencode img (n + 1))) n).sizes.head? = some (renv.sizeOf (renv.reencode img (n + 1))) :=
          reduceLoop_sizes_head renv _ _ n
        have hmem : renv.sizeOf (renv.reencode img (n + 1)) ∈ (reduceLoop renv (renv.reencode img (n + 1)) (renv.sizeOf (renv.reencode img (n + 1))) n).sizes :=
          List.mem_of_mem_head? (by simp [hhead])
        have h1 := ih (renv.reencode img (n + 1)) (renv.sizeOf (renv.reencode img (n + 1))) rfl _ hmem
        have h2 := hmono img (n + 1)
        simp only
        omega
      · exact ih (renv.reencode img (n + 1)) (renv.sizeOf (renv.reencode img (n + 1))) rfl x hx
    · intro x hx
      simp only [List.mem_singleton] at hx
      simp [hx]

theorem reduceLoop_qualities_chain {Img : Type} (renv : ReduceEnv Img) (img : Img) (size q : Nat) :
    List.Chain' (fun a b => a = b + qualityStepT) (reduceLoop renv img size q).qualities := by
  induction q generalizing img size with
  | zero => simp [reduceLoop]
  | succ n ih =>
    simp only [reduceLoop]
    split
    · simp only
      rw [List.chain'_cons']
      refine ⟨?_, ih _ _⟩
      intro b hb
      have hb1 := reduceLoop_qualities_head renv (renv.reencode img (n + 1)) (renv.sizeOf (renv.reencode img (n + 1))) n b hb
      simp [hb1, qualityStepT]
    · simp

theorem reduceLoop_sizes_chain {Img : Type} (renv : ReduceEnv Img)
    (hmono : ∀ img q, renv.sizeOf (renv.reencode img q) ≤ renv.sizeOf img)
    (img : Img) (size q : Nat) (hs : size = renv.sizeOf img) :
    List.Chain' (fun a b => b ≤ a) (reduceLoop renv img size q).sizes := by
  induction q generalizing img size with
  | zero => simp [reduceLoop]
  | succ n ih =>
    simp only [reduceLoop]
    split
    · simp only
      rw [List.chain'_cons']
      refine ⟨?_, ih _ _ rfl⟩
      intro y hy
      rw [reduceLoop_sizes_head renv _ _ n] at hy
      simp only [Option.mem_some_iff] at hy
      subst hy
      subst hs
      exact hmono img (n + 1)
    · simp

/-- C1: For every source image, the payload SizeReducer returns is at
most 1,048,576 bytes, or else the quality floor was reached first and,
provided re-encoding at a lower quality never enlarges the candidate,
the returned payload is the smallest variant measured during the run. -/
theorem sizeReducer_ceiling_or_floor {Img : Type} (renv : ReduceEnv Img)
    (hmono : ∀ img q, renv.sizeOf (renv.reencode img q) ≤ renv.sizeOf img) :
    (reduce renv).size ≤ maxFileSize ∨
      ((reduce renv).quality ≤ qualityFloorT ∧
        ∀ x ∈ (reduce renv).sizes, (reduce renv).size ≤ x) := by
  rcases reduceLoop_postcond renv renv.initial (renv.sizeOf renv.initial) startQualityT with h | h
  · exact Or.inl h
  · exact Or.inr ⟨h, reduceLoop_size_min renv hmono renv.initial (renv.sizeOf renv.initial) startQualityT rfl⟩

/-- C1 witness: the theorem applied to the concrete small environment. -/
theorem sizeReducer_ceiling_or_floor_witness :
    (reduce cRenvSmall).size ≤ maxFileSize ∨
      ((reduce cRenvSmall).quality ≤ qualityFloorT ∧
        ∀ x ∈ (reduce cRenvSmall).sizes, (reduce cRenvSmall).size ≤ x) :=
  sizeReducer_ceiling_or_floor cRenvSmall (fun _ _ => Nat.le_refl 1000)

/-- C2: For every source image, the quality-reduction loop of
SizeReducer performs at most (startQuality - qualityFloor) /
qualityStep + 1 iterations, the quality used drops by exactly one step
from each iteration to the next, and, provided re-encoding at a lower
quality never enlarges the candidate, the measured byte sizes are
non-increasing across iterations. -/
theorem sizeReducer_iteration_bound {Img : Type} (renv : ReduceEnv Img)
    (hmono : ∀ img q, renv.sizeOf (renv.reencode img q) ≤ renv.sizeOf img) :
    (reduce renv).iterations ≤ (startQualityT - qualityFloorT) / qualityStepT + 1 ∧
      List.Chain' (fun a b => a = b + qualityStepT) (reduce renv).qualities ∧
      List.Chain' (fun a b => b ≤ a) (reduce renv).sizes := by
  refine ⟨?_, reduceLoop_qualities_chain renv _ _ _, reduceLoop_sizes_chain renv hmono _ _ _ rfl⟩
  have h : (reduce renv).iterations ≤ startQualityT :=
    reduceLoop_iterations_le renv renv.initial (renv.sizeOf renv.initial) startQualityT
  have hb : startQualityT ≤ (startQualityT - qualityFloorT) / qualityStepT + 1 := by decide
  omega

/-- C2 witness: the theorem applied to the concrete small environment. -/
theorem sizeReducer_iteration_bound_witness :
    (reduce cRenvSmall).iterations ≤ (startQualityT - qualityFloorT) / qualityStepT + 1 ∧
      List.Chain' (fun a b => a = b + qualityStepT) (reduce cRenvSmall).qualities ∧
      List.Chain' (fun a b => b ≤ a) (reduce cRenvSmall).sizes :=
  sizeReducer_iteration_bound cRenvSmall (fun _ _ => Nat.le_refl 1000)

/-- C9: For every source image whose initial candidate measures at or
under the byte ceiling, SizeReducer performs zero quality-reduction
iterations and returns the first candidate with its size and the
quality variable untouched. -/
theorem sizeReducer_zero_iterations_under_ceiling {Img : Type} (renv : ReduceEnv Img)
    (h : renv.sizeOf renv.initial ≤ maxFileSize) :
    (reduce renv).iterations = 0 ∧
      (reduce renv).img = renv.initial ∧
      (reduce renv).size = renv.sizeOf renv.initial ∧
      (reduce renv).quality = startQualityT := by
  have hnot : ¬ (maxFileSize < renv.sizeOf renv.initial ∧ qualityFloorT < startQualityT) := by
    intro hc
    omega
  simp only [reduce, startQualityT, reduceLoop]
  rw [if_neg (by simpa [startQualityT] using hnot)]
  exact ⟨rfl, rfl, rfl, rfl⟩

/-- C9 witness: the theorem applied to the concrete small environment,
whose initial candidate measures 1000 bytes. -/
theorem sizeReducer_zero_iterations_under_ceiling_witness :
    (reduce cRenvSmall).iterations = 0 ∧
      (reduce cRenvSmall).img = cRenvSmall.initial ∧
      (reduce cRenvSmall).size = cRenvSmall.sizeOf cRenvSmall.initial ∧
      (reduce cRenvSmall).quality = startQualityT :=
  sizeReducer_zero_iterations_under_ceiling cRenvSmall (by decide)

theorem jsOrStr_some_empty (s : String) : jsOrStr (some s) emptyStr = s := by
  by_cases h : s.isEmpty
  · simp [jsOrStr, h, (String.isEmpty_iff s).mp h, emptyStr]
  · simp [jsOrStr, h]

theorem runV1_ocrFetches_le_one {Img : Type} (env : RunEnvV1 Img) :
    (runV1 env).ocrFetches ≤ 1 := by
  obtain ⟨renv, ocr, analyze⟩ := env
  cases renv with
  | none => exact Nat.zero_le 1
  | some renv =>
    cases ocr with
    | netFail => exact Nat.le_refl 1
    | http st body =>
      cases body with
      | none => exact Nat.le_refl 1
      | some data =>
        simp only [runV1, fetchJson]
        by_cases h : (ocrText data).isEmpty
        · simp [h]
        · simp only [h]
          cases analyze with
          | netFail => simp [fetchJson]
          | http st2 body2 =>
            cases body2 with
            | none => simp [fetchJson]
            | some adata => simp [fetchJson]

/-- C6: For every OCR response, the OcrClient result is the trimmed
first ParsedText when one is present; a missing ParsedResults field, an
empty array, or an absent ParsedText each yield exactly the empty
string, and the extraction is a total function, never an error. A
present text that trims to nothing also yields the empty string, since
the trimmed value is returned as is. -/
theorem ocr_text_extraction_rule (data : OcrJson) :
    (∀ e rest t, data.ParsedResults = some (e :: rest) → e.ParsedText = some t →
      ocrText data = jsTrim t) ∧
    (data.ParsedResults = none → ocrText data = emptyStr) ∧
    (data.ParsedResults = some [] → ocrText data = emptyStr) ∧
    (∀ e rest, data.ParsedResults = some (e :: rest) → e.ParsedText = none →
      ocrText data = emptyStr) := by
  obtain ⟨pr⟩ := data
  refine ⟨?_, ?_, ?_, ?_⟩
  · rintro e rest t h1 h2
    simp only at h1
    subst h1
    simp [ocrText, h2, jsOrStr_some_empty]
  · rintro h1
    simp only at h1
    subst h1
    simp [ocrText, jsOrStr]
  · rintro h1
    simp only at h1
    subst h1
    simp [ocrText, jsOrStr]
  · rintro e rest h1 h2
    simp only at h1
    subst h1
    simp [ocrText, h2, jsOrStr]

/-- C6 witness: the spec example, a single entry whose text carries
surrounding whitespace, extracts to the trimmed text. -/
theorem ocr_text_extraction_rule_witness :
    ocrText cOcrHello = jsTrim sampleRaw ∧ jsTrim sampleRaw = sampleTrimmed :=
  ⟨(ocr_text_extraction_rule cOcrHello).1 { ParsedText := some sampleRaw } [] sampleRaw rfl rfl,
    by decide⟩

/-- C7: For every run reaching the analysis stage whose response body
carries no result field, the displayed explanation is exactly the fixed
fallback string, the run ends Done and no alert is emitted: a
successful outcome, not an error. -/
theorem explain_fallback_on_absent_result {Img : Type} (env : RunEnvV1 Img)
    (renv : ReduceEnv Img) (hrenv : env.renv = some renv)
    (data : OcrJson) (hocr : fetchJson env.ocr = Except.ok data)
    (htext : (ocrText data).isEmpty = false)
    (st : Nat) (adata : AnalyzeJson) (hres : adata.result = none)
    (hana : env.analyze = FetchResult.http st (some adata)) :
    (runV1 env).aiResult = noResultFallback ∧
      (runV1 env).finalState = PipelineState.Done ∧
      (runV1 env).alerts = [] := by
  simp only [runV1, hrenv, hocr, hana]
  simp only [htext, Bool.false_eq_true, if_false]
  simp only [fetchJson]
  simp [analyzeResult, hres, jsOrStr]

/-- C7 witness: the theorem applied to the concrete run whose analysis
response is an empty JSON object. -/
theorem explain_fallback_on_absent_result_witness :
    (runV1 envExplainAbsent).aiResult = noResultFallback ∧
      (runV1 envExplainAbsent).finalState = PipelineState.Done ∧
      (runV1 envExplainAbsent).alerts = [] :=
  explain_fallback_on_absent_result envExplainAbsent cRenvSmall rfl cOcrHello rfl
    (by decide) 200 { result := none } rfl rfl

/-- C10: For every analysis response whose result field is present but
equal to the empty string, the returned explanation is the fixed
fallback string, indistinguishable at the interface from an absent
result. -/
theorem explain_fallback_on_empty_result (adata : AnalyzeJson)
    (h : adata.result = some emptyStr) :
    analyzeResult adata = noResultFallback ∧
      analyzeResult adata = analyzeResult { result := none } := by
  simp only [analyzeResult, h]
  exact ⟨by decide, by decide⟩

/-- C10 witness: the theorem applied to the literal response whose
result field is the empty string. -/
theorem explain_fallback_on_empty_result_witness :
    analyzeResult { result := some emptyStr } = noResultFallback ∧
      analyzeResult { result := some emptyStr } = analyzeResult { result := none } :=
  explain_fallback_on_empty_result { result := some emptyStr } rfl

/-- C5: For every run in which the OCR stage succeeds with an empty
extracted text, the analysis stage is never invoked, no analysis fetch
is issued, the run ends Done, and the single alert is the no-text
informational message. -/
theorem empty_text_short_circuit {Img : Type} (env : RunEnvV1 Img)
    (renv : ReduceEnv Img) (hrenv : env.renv = some renv)
    (data : OcrJson) (hocr : fetchJson env.ocr = Except.ok data)
    (htext : ocrText data = emptyStr) :
    (runV1 env).explainInvoked = false ∧
      (runV1 env).analyzeFetches = 0 ∧
      (runV1 env).finalState = PipelineState.Done ∧
      (runV1 env).alerts = [AlertKind.noTextDetected] ∧
      alertTitle AlertKind.noTextDetected = "No text detected" := by
  have hempty : (ocrText data).isEmpty = true := by
    rw [htext]
    decide
  simp only [runV1, hrenv, hocr, hempty, if_true]
  simp [alertTitle]

/-- C5 witness: the theorem applied to the concrete run whose OCR
response has no ParsedResults field. -/
theorem empty_text_short_circuit_witness :
    (runV1 envNoText).explainInvoked = false ∧
      (runV1 envNoText).analyzeFetches = 0 ∧
      (runV1 envNoText).finalState = PipelineState.Done ∧
      (runV1 envNoText).alerts = [AlertKind.noTextDetected] ∧
      alertTitle AlertKind.noTextDetected = "No text detected" :=
  empty_text_short_circuit envNoText cRenvSmall rfl cOcrEmpty rfl (by decide)

/-- C3 amended: a network failure or a malformed JSON body of the OCR
response each end the run Failed with the extraction failure alert and
without reaching the analysis stage, and at most one OCR fetch is ever
issued; the HTTP status code, however, is never inspected, so a non-2xx
response with a well-formed body does not by itself fail the run. -/
theorem ocr_failure_modes {Img : Type} (env : RunEnvV1 Img)
    (renv : ReduceEnv Img) (hrenv : env.renv = some renv) :
    (env.ocr = FetchResult.netFail →
      (runV1 env).finalState = PipelineState.Failed ∧
        (runV1 env).alerts = [AlertKind.extractFailed] ∧
        (runV1 env).analyzeFetches = 0) ∧
    (∀ st, env.ocr = FetchResult.http st none →
      (runV1 env).finalState = PipelineState.Failed ∧
        (runV1 env).alerts = [AlertKind.extractFailed] ∧
        (runV1 env).analyzeFetches = 0) ∧
    (runV1 env).ocrFetches ≤ 1 := by
  refine ⟨?_, ?_, runV1_ocrFetches_le_one env⟩
  · intro h
    simp [runV1, hrenv, h, fetchJson]
  · intro st h
    simp [runV1, hrenv, h, fetchJson]

/-- C3 witness: the theorem applied to the concrete run whose OCR fetch
rejects at the network level. -/
theorem ocr_failure_modes_witness :
    (runV1 envOcrNetFail).finalState = PipelineState.Failed ∧
      (runV1 envOcrNetFail).alerts = [AlertKind.extractFailed] ∧
      (runV1 envOcrNetFail).analyzeFetches = 0 :=
  (ocr_failure_modes envOcrNetFail cRenvSmall rfl).1 rfl

/-- C3 counterexample: a status 500 response with a well-formed JSON
body does not fail the run; the run ends Done with the no-text alert,
so a non-2xx status alone is not an OCR service error here. -/
theorem ocr_non2xx_not_failing_cex :
    envOcr500.ocr = FetchResult.http 500 (some cOcrEmpty) ∧
      (runV1 envOcr500).finalState = PipelineState.Done ∧
      (runV1 envOcr500).alerts = [AlertKind.noTextDetected] ∧
      (runV1 envOcr500).finalState ≠ PipelineState.Failed := by
  refine ⟨rfl, by decide, by decide, by decide⟩

/-- C4 amended, v1 part: in the resize-then-iterate revision, a throw
of the initial image manipulation ends the run Failed with the generic
extraction failure alert, with no OCR fetch and no analysis stage. -/
theorem encoding_failure_terminal_in_v1 {Img : Type} (env : RunEnvV1 Img)
    (h : env.renv = none) :
    (runV1 env).finalState = PipelineState.Failed ∧
      (runV1 env).ocrFetches = 0 ∧
      (runV1 env).alerts = [AlertKind.extractFailed] ∧
      (runV1 env).explainInvoked = false := by
  simp [runV1, h]

/-- C4 witness: the theorem applied to the concrete run whose initial
manipulation throws. -/
theorem encoding_failure_terminal_in_v1_witness :
    (runV1 envEncFail).finalState = PipelineState.Failed ∧
      (runV1 envEncFail).ocrFetches = 0 ∧
      (runV1 envEncFail).alerts = [AlertKind.extractFailed] ∧
      (runV1 envEncFail).explainInvoked = false :=
  encoding_failure_terminal_in_v1 envEncFail rfl

/-- C4 counterexample: in the base64-measuring revision, with an
oversized original and a manipulation call that throws on the very
first quality, the compression failure is caught and the run still
issues the OCR fetch and ends Done, contradicting a terminal failure
without OCR. -/
theorem encoding_failure_still_reaches_ocr_cex :
    envV2EncFail.manip 90 = ManipOutcome.throws ∧
      maxFileSize < calcBytes envV2EncFail.base64Len ∧
      (runV2 envV2EncFail).ocrFetches = 1 ∧
      (runV2 envV2EncFail).finalState = PipelineState.Done := by
  refine ⟨rfl, by decide, rfl, rfl⟩

/-- C8: For every run and every outcome, the busy flag is false by the
end of the run, the terminal snapshot of the trace carries a cleared
busy flag, and every snapshot with the busy flag set is in one of the
active states Reducing, ExtractingText or Explaining, never Idle, Done
or Failed. -/
theorem busy_flag_clears_and_only_active {Img : Type} (env : RunEnvV1 Img) :
    (runV1 env).busyAtEnd = false ∧
      (runV1 env).trace.all busyOnlyWhenActive = true ∧
      (runV1 env).trace.getLast? = some ((runV1 env).finalState, false) := by
  obtain ⟨renv, ocr, analyze⟩ := env
  cases renv with
  | none => exact ⟨rfl, rfl, rfl⟩
  | some renv =>
    cases ocr with
    | netFail => exact ⟨rfl, rfl, rfl⟩
    | http st body =>
      cases body with
      | none => exact ⟨rfl, rfl, rfl⟩
      | some data =>
        simp only [runV1, fetchJson]
        cases heq : (ocrText data).isEmpty with
        | true =>
          refine ⟨?_, ?_, ?_⟩ <;> trivial
        | false =>
          cases analyze with
          | netFail => refine ⟨?_, ?_, ?_⟩ <;> trivial
          | http st2 body2 =>
            cases body2 with
            | none => refine ⟨?_, ?_, ?_⟩ <;> trivial
            | some adata => refine ⟨?_, ?_, ?_⟩ <;> trivial

end ExplainIt
